import Mathlib

/-!
Verification development for the IPL player-prediction repository.

The repository's checked-in sources are the React frontend (API client,
dashboard and prediction pages) together with deployment scripts.  The
backend prediction engine (ingestion gateway, feature engineer, model
registry, confidence estimator, prediction service) is described by the
design document but its code is not in the tree, so those components are
modelled from the design document; the frontend components are embedded
directly from their JavaScript sources.
-/

namespace IPL

/-! ### Frontend API client (frontend/src/api.js)

Each client function receives an HTTP response; we model the response by
its `ok` flag and its (already parsed) JSON body, abstracted as a string
payload.  `getMatches` and `getMatchPredictions` throw an `Error` with a
fixed message whenever `ok` is false; the remaining six functions return
`response.json()` without inspecting the status. -/

structure HttpResponse where
  ok : Bool
  body : String
deriving Repr, DecidableEq

inductive ApiResult where
  | success (body : String) : ApiResult
  | failure (message : String) : ApiResult
deriving Repr, DecidableEq

def getMatches (r : HttpResponse) : ApiResult :=
  if r.ok then .success r.body else .failure "Failed to fetch matches"

def getMatchPredictions (r : HttpResponse) : ApiResult :=
  if r.ok then .success r.body else .failure "Failed to fetch match predictions"

def getPlayerPredictions (r : HttpResponse) : ApiResult :=
  .success r.body

def getTeams (r : HttpResponse) : ApiResult :=
  .success r.body

def getPlayers (r : HttpResponse) : ApiResult :=
  .success r.body

def getPredictions (r : HttpResponse) : ApiResult :=
  .success r.body

def getVenues (r : HttpResponse) : ApiResult :=
  .success r.body

def checkHealth (r : HttpResponse) : ApiResult :=
  .success r.body

/-! ### Dashboard (pages/Dashboard.js, `loadMatches`)

`loadMatches` stores `data.slice(0, 6)` into the component state; the
rendered match cards are exactly that slice. -/

structure MatchInfo where
  match_no : Nat
  team1 : String
  team2 : String
  date : String
  time : String
  venue : String
deriving Repr, DecidableEq

def loadMatches (data : List MatchInfo) : List MatchInfo :=
  data.take 6

/-! ### Shapes of the prediction objects the frontend reads

For each consumer component we record, as field-access paths relative to
the per-player `prediction` object, exactly the fields its JSX reads.
`claimedShapePath` is the shape asserted by the design document: one
object per target name with fields value, lower_bound, upper_bound,
confidence. -/

abbrev AccessPath := List String

def targetNames : List String :=
  ["runs", "wickets", "strike_rate", "economy_rate"]

def boundFields : List String :=
  ["value", "lower_bound", "upper_bound", "confidence"]

def claimedShapePath (p : AccessPath) : Bool :=
  match p with
  | [t, f] => targetNames.contains t && boundFields.contains f
  | _ => false

/-- Reads performed by `renderPredictionTable` in
frontend/src/components/MatchPredictions.js (lines 59-62). -/
def renderPredictionTable_reads : List AccessPath :=
  [["batting", "value"], ["bowling", "value"],
   ["batting", "strike_rate"], ["bowling", "economy_rate"]]

/-- Reads performed by the `MatchPredictions` card grid in the variant
component (unnamed part_004, lines 92-104). -/
def matchPredictionsCard_reads : List AccessPath :=
  [["runs"], ["wickets"], ["strike_rate"], ["economy_rate"]]

/-- Reads performed by the `Predictions` page (unnamed part_000,
lines 151-177). -/
def predictionsPage_reads : List AccessPath :=
  [["expected_runs"], ["expected_wickets"], ["expected_strike_rate"],
   ["expected_economy_rate"], ["confidence", "overall"]]

/-! ### Backend prediction engine, modelled from the design document

The engine's code is not in the tree; every definition below carries a
doc comment naming what it models. -/

/-- Modelled from the spec: the residual-distribution summary recorded at
training time for one target (§4.5), together with the target's
historical value range used to scale confidence. `q_low` and `q_high`
are the empirical residual percentile offsets (2.5th and 97.5th), `std`
the residual standard deviation for the small-sample fallback. -/
structure ResidualSummary where
  q_low : ℚ
  q_high : ℚ
  std : ℚ
  sampleCount : Nat
  histRange : ℚ
deriving Repr, DecidableEq

/-- Modelled from the spec: minimum residual sample count below which the
normal-approximation fallback is used (§4.5). -/
def minResidualSamples : Nat := 30

/-- Modelled from the spec: half-width multiplier of the
normal-approximation fallback interval (a 95 percent interval uses about
two standard deviations). -/
def zFallback : ℚ := 2

/-- Modelled from the spec: one per-target prediction as serialized in
the `PredictionResult` (§3, §6). -/
structure Prediction where
  value : ℚ
  lower_bound : ℚ
  upper_bound : ℚ
  confidence : ℚ
deriving Repr, DecidableEq

/-- Modelled from the spec: the Confidence Estimator's
`interval(target, pointEstimate)` (§4.5).  Empirical percentile offsets
around the point estimate form the interval (normal approximation when
the residual sample is small); bounds are then ordered around the point
estimate per the stated policy, and confidence is a monotonically
decreasing function of interval width relative to the historical range,
clamped to [0, 1].  Here: the lower interval edge before the ordering
policy. -/
def rawLower (rs : ResidualSummary) (pointEstimate : ℚ) : ℚ :=
  if rs.sampleCount < minResidualSamples then
    pointEstimate - zFallback * rs.std
  else
    pointEstimate + rs.q_low

/-- Modelled from the spec: upper interval edge before the ordering
policy, percentile offset or normal-approximation fallback (§4.5). -/
def rawUpper (rs : ResidualSummary) (pointEstimate : ℚ) : ℚ :=
  if rs.sampleCount < minResidualSamples then
    pointEstimate + zFallback * rs.std
  else
    pointEstimate + rs.q_high

/-- Modelled from the spec: lower bound after the ordering policy
`lower ≤ pointEstimate` (§4.5). -/
def lowerOf (rs : ResidualSummary) (pointEstimate : ℚ) : ℚ :=
  min (rawLower rs pointEstimate) pointEstimate

/-- Modelled from the spec: upper bound after the ordering policy
`pointEstimate ≤ upper` (§4.5). -/
def upperOf (rs : ResidualSummary) (pointEstimate : ℚ) : ℚ :=
  max (rawUpper rs pointEstimate) pointEstimate

/-- Modelled from the spec: scalar confidence, a monotonically
decreasing function of interval width relative to the target's
historical value range, clamped to [0, 1] (§4.5). -/
def confidenceOf (rs : ResidualSummary) (pointEstimate : ℚ) : ℚ :=
  if rs.histRange ≤ 0 then 0
  else max 0 (1 - (upperOf rs pointEstimate - lowerOf rs pointEstimate) / rs.histRange)

/-- Modelled from the spec: the Confidence Estimator's full
`interval(target, pointEstimate) -> (lower, upper, confidence)`
contract (§4.5). -/
def interval (rs : ResidualSummary) (pointEstimate : ℚ) : ℚ × ℚ × ℚ :=
  (lowerOf rs pointEstimate, upperOf rs pointEstimate, confidenceOf rs pointEstimate)

/-- Modelled from the spec: assembly of one per-target prediction from
the point estimate and its interval (§4.5, §4.6). -/
def mkPrediction (rs : ResidualSummary) (pointEstimate : ℚ) : Prediction :=
  let i := interval rs pointEstimate
  { value := pointEstimate
    lower_bound := i.1
    upper_bound := i.2.1
    confidence := i.2.2 }

/-- Modelled from the spec: errors of the engine's taxonomy (§7) that
components below can raise. -/
inductive EngineError where
  | modelUnavailableError : EngineError
  | ingestionError : EngineError
deriving Repr, DecidableEq

/-- Modelled from the spec: a versioned trained model bundle (§3, §4.4):
identifier, target name, serialized model state (weights of the linear
variant of the regressor capability), the feature-schema fingerprint it
was trained against, its residual summary, the size of its training set
and a creation timestamp. -/
structure TrainedModelBundle where
  modelId : String
  target : String
  weights : List ℚ
  fingerprint : Nat
  residuals : ResidualSummary
  trainingSamples : Nat
  createdAt : Nat
deriving Repr, DecidableEq

/-- Modelled from the spec: the Model Registry's promoted state (§4.4),
the currently promoted bundle per target, as an association list. -/
structure Registry where
  promoted : List (String × TrainedModelBundle)
deriving Repr, DecidableEq

/-- Modelled from the spec: lookup of the currently promoted bundle for
one target (§4.4). -/
def findCurrent (reg : Registry) (target : String) : Option TrainedModelBundle :=
  (reg.promoted.find? (fun p => p.1 == target)).map (fun p => p.2)

/-- Modelled from the spec: `loadCurrent(target)` (§4.4).  Fails with
`ModelUnavailableError` if no bundle has ever been promoted for the
target or if the current bundle's feature-schema fingerprint differs
from the fingerprint `currentFp` the Feature Engineer now produces. -/
def loadCurrent (reg : Registry) (currentFp : Nat) (target : String) :
    Except EngineError TrainedModelBundle :=
  match findCurrent reg target with
  | none => .error .modelUnavailableError
  | some b =>
      if b.fingerprint == currentFp then .ok b
      else .error .modelUnavailableError

/-- Modelled from the spec: the Model Ensemble's per-target regressor
(§4.3), a map from a fixed-length numeric vector to a scalar; the
concrete swappable variant is linear. -/
def ensemblePredict (b : TrainedModelBundle) (fv : List ℚ) : ℚ :=
  (List.zipWith (fun w x => w * x) b.weights fv).sum

/-- Modelled from the spec: minimum training sample count below which a
target's predictor is marked unavailable (§4.3). -/
def minTrainingSamples : Nat := 10

/-- Modelled from the spec: a target's predictor is available when a
bundle with the current fingerprint is promoted and its training set
reached the minimum sample count (§4.3, §4.4). -/
def predictorAvailable (reg : Registry) (currentFp : Nat) (target : String) : Bool :=
  match loadCurrent reg currentFp target with
  | .ok b => decide (minTrainingSamples ≤ b.trainingSamples)
  | .error _ => false

/-- Modelled from the spec: the per-target entry of a
`PredictionResult`, either an explicit unavailable marker or a populated
prediction (§4.6, §7). -/
inductive TargetOutcome where
  | unavailable : TargetOutcome
  | predicted (p : Prediction) : TargetOutcome
deriving Repr, DecidableEq

/-- Modelled from the spec: the match context echoed back in every
`PredictionResult` (§3). -/
structure MatchContext where
  matchId : Nat
  team1 : String
  team2 : String
  venue : String
  date : String
deriving Repr, DecidableEq

/-- Modelled from the spec: the structured result of `predict` (§3,
§4.6): one outcome per target plus the echoed match context. -/
structure PredictionResult where
  runs : TargetOutcome
  wickets : TargetOutcome
  strike_rate : TargetOutcome
  economy_rate : TargetOutcome
  context : MatchContext
deriving Repr, DecidableEq

/-- Modelled from the spec: the Prediction Service's per-target step
(§4.6): load the current bundle, check availability, compute the point
estimate and attach its interval, or mark the target unavailable. -/
def predictTarget (reg : Registry) (currentFp : Nat) (fv : List ℚ)
    (target : String) : TargetOutcome :=
  match loadCurrent reg currentFp target with
  | .error _ => .unavailable
  | .ok b =>
      if minTrainingSamples ≤ b.trainingSamples then
        .predicted (mkPrediction b.residuals (ensemblePredict b fv))
      else
        .unavailable

/-- Modelled from the spec: the Prediction Service's orchestration
(§4.6), assembling a partial `PredictionResult` over the four targets. -/
def predictService (reg : Registry) (currentFp : Nat) (fv : List ℚ)
    (ctx : MatchContext) : PredictionResult :=
  { runs := predictTarget reg currentFp fv "runs"
    wickets := predictTarget reg currentFp fv "wickets"
    strike_rate := predictTarget reg currentFp fv "strike_rate"
    economy_rate := predictTarget reg currentFp fv "economy_rate"
    context := ctx }

/-! ### Ingestion Gateway, modelled from the design document (§3, §4.1) -/

/-- Modelled from the spec: a cache entry for one key — payload, fetch
timestamp and TTL (§3). -/
structure CacheEntry where
  payload : String
  fetchedAt : Nat
  ttl : Nat
deriving Repr, DecidableEq

/-- Modelled from the spec: an entry is fresh while
`now - fetch_timestamp ≤ TTL` (§3). -/
def isFresh (now : Nat) (e : CacheEntry) : Bool :=
  decide (now - e.fetchedAt ≤ e.ttl)

/-- Modelled from the spec: the outcome of one `fetch` call (§4.1):
served fresh from cache, refreshed from the external source, the last
known payload annotated stale, or a raised error. -/
inductive FetchOutcome where
  | fresh (payload : String) : FetchOutcome
  | refreshed (payload : String) : FetchOutcome
  | stale (payload : String) : FetchOutcome
  | failed (e : EngineError) : FetchOutcome
deriving Repr, DecidableEq

/-- Modelled from the spec: the retry loop over the external data
collaborator (§4.1): successive call attempts until the first success,
returning the first successful payload (if any) and the number of
external calls issued. -/
def firstSuccess : List (Option String) → Option String × Nat
  | [] => (none, 0)
  | some p :: _ => (some p, 1)
  | none :: rest =>
      let r := firstSuccess rest
      (r.1, r.2 + 1)

/-- Modelled from the spec: `fetch(source, key)` for one key (§4.1).
`attempts` lists what the external data collaborator would return on
successive call attempts (already bounded by the retry limit).  Serves
the cached payload while fresh; otherwise calls out, refreshing the
entry on success; when every attempt fails it returns the last known
payload annotated stale, or raises `IngestionError` when no payload has
ever been cached.  Returns the outcome, the updated cache entry for the
key, and the number of external calls issued. -/
def fetch (now ttl : Nat) (cached : Option CacheEntry)
    (attempts : List (Option String)) :
    FetchOutcome × Option CacheEntry × Nat :=
  match cached with
  | some e =>
      if isFresh now e then (.fresh e.payload, some e, 0)
      else
        match firstSuccess attempts with
        | (some p, k) => (.refreshed p, some ⟨p, now, ttl⟩, k)
        | (none, k) => (.stale e.payload, some e, k)
  | none =>
      match firstSuccess attempts with
      | (some p, k) => (.refreshed p, some ⟨p, now, ttl⟩, k)
      | (none, k) => (.failed .ingestionError, none, k)

/-! ### Feature Engineer, modelled from the design document (§4.2) -/

/-- Modelled from the spec: exponential decay weights for the last n
performance records, most recent last; weight = decay ^ age_in_matches
(§4.2). -/
def decayWeights (decay : ℚ) (n : Nat) : List ℚ :=
  (List.range n).map (fun i => decay ^ (n - 1 - i))

/-- Modelled from the spec: the Feature Engineer's form factor (§4.2),
the exponentially time-decayed weighted average of the recent
performance records (most recent last), guarded when the weights sum to
zero. -/
def formFactor (decay : ℚ) (records : List ℚ) : ℚ :=
  if (decayWeights decay records.length).sum = 0 then 0
  else
    (List.zipWith (fun a b => a * b)
        (decayWeights decay records.length) records).sum
      / (decayWeights decay records.length).sum

/-- Modelled from the spec: the declared, versioned feature schema — the
same ordered set of names for every invocation of one schema version
(§3, §4.2). -/
def featureSchema : List String :=
  ["batting_form", "bowling_form", "consistency", "venue_factor",
   "opposition_strength", "pressure_index"]

/-- Modelled from the spec: lookup of a possibly-missing underlying
input for one request, keyed by feature name (§4.2). -/
def lookupRaw (inputs : List (String × Option ℚ)) (name : String) : Option ℚ :=
  match inputs.find? (fun q => q.1 == name) with
  | some q => q.2
  | none => none

/-- Modelled from the spec: `build(player, matchContext)` at the
imputation and schema layer (§4.2): one entry per schema name, in schema
order; the computed underlying metric when present, otherwise the
role-level historical median — imputation is total. -/
def build (medians : String → ℚ) (inputs : List (String × Option ℚ)) :
    List (String × ℚ) :=
  featureSchema.map (fun n =>
    (n, match lookupRaw inputs n with
        | some v => v
        | none => medians n))

end IPL

namespace IPL

/-- Sum of a pointwise-divided weighted product: dividing each weight by
`s` before multiplying equals dividing the weighted sum by `s`. -/
theorem sum_zipWith_div (s : ℚ) : ∀ (w x : List ℚ),
    (List.zipWith (fun a b => a / s * b) w x).sum
      = (List.zipWith (fun a b => a * b) w x).sum / s
  | [], _ => by simp
  | _ :: _, [] => by simp
  | a :: w, b :: x => by
      simp only [List.zipWith_cons_cons, List.sum_cons]
      rw [sum_zipWith_div s w x, add_div, div_mul_eq_mul_div]

/-- C9: in the frontend API client, `getMatches` and
`getMatchPredictions` throw an `Error` exactly when the response's `ok`
flag is false, while the other six client functions return the parsed
body without inspecting the status. -/
theorem api_client_error_handling (r : HttpResponse) :
    (r.ok = false →
      getMatches r = .failure "Failed to fetch matches" ∧
      getMatchPredictions r = .failure "Failed to fetch match predictions") ∧
    (r.ok = true →
      getMatches r = .success r.body ∧
      getMatchPredictions r = .success r.body) ∧
    getPlayerPredictions r = .success r.body ∧
    getTeams r = .success r.body ∧
    getPlayers r = .success r.body ∧
    getPredictions r = .success r.body ∧
    getVenues r = .success r.body ∧
    checkHealth r = .success r.body := by
  refine ⟨fun h => ?_, fun h => ?_, rfl, rfl, rfl, rfl, rfl, rfl⟩
  · simp [getMatches, getMatchPredictions, h]
  · simp [getMatches, getMatchPredictions, h]

/-- Witness for C9 at a concrete failed response. -/
theorem api_client_error_handling_witness :
    getMatches ⟨false, "b"⟩ = .failure "Failed to fetch matches" ∧
    getTeams ⟨false, "b"⟩ = .success "b" := by
  have h := api_client_error_handling ⟨false, "b"⟩
  exact ⟨(h.1 rfl).1, h.2.2.2.1⟩

/-- C1 counterexample: the claim that every prediction object the
frontend consumers read has the per-target-name shape
`\x7bvalue, lower_bound, upper_bound, confidence\x7d` fails on the code:
`renderPredictionTable` reads `prediction.batting.value`, which is not a
path of that shape (nor is any other path it reads). -/
theorem frontend_shape_counterexample :
    renderPredictionTable_reads.all claimedShapePath = false := by decide

/-- C1 as amended: none of the three frontend consumers reads the
per-target `\x7bvalue, lower_bound, upper_bound, confidence\x7d` shape.
`renderPredictionTable` reads nested `batting`/`bowling` fields, the
variant match-predictions card reads flat per-target scalars, and the
predictions page reads `expected_*` scalars plus `confidence.overall`. -/
theorem frontend_prediction_read_shapes :
    renderPredictionTable_reads.all (fun p => !claimedShapePath p) = true ∧
    matchPredictionsCard_reads.all (fun p => !claimedShapePath p) = true ∧
    predictionsPage_reads.all (fun p => !claimedShapePath p) = true ∧
    renderPredictionTable_reads =
      [["batting", "value"], ["bowling", "value"],
       ["batting", "strike_rate"], ["bowling", "economy_rate"]] ∧
    matchPredictionsCard_reads = targetNames.map (fun t => [t]) ∧
    predictionsPage_reads =
      targetNames.map (fun t => ["expected_" ++ t]) ++ [["confidence", "overall"]] := by
  refine ⟨by decide, by decide, by decide, rfl, by decide, by decide⟩

/-- C2: every prediction the engine assembles satisfies
`lower_bound ≤ value ≤ upper_bound` and `0 ≤ confidence ≤ 1`. -/
theorem prediction_bounds_and_confidence (rs : ResidualSummary) (pe : ℚ) :
    (mkPrediction rs pe).lower_bound ≤ (mkPrediction rs pe).value ∧
    (mkPrediction rs pe).value ≤ (mkPrediction rs pe).upper_bound ∧
    0 ≤ (mkPrediction rs pe).confidence ∧
    (mkPrediction rs pe).confidence ≤ 1 := by
  have hlow : lowerOf rs pe ≤ pe := min_le_right _ _
  have hupp : pe ≤ upperOf rs pe := le_max_right _ _
  refine ⟨hlow, hupp, ?_, ?_⟩
  · show 0 ≤ confidenceOf rs pe
    unfold confidenceOf
    split
    · exact le_refl 0
    · exact le_max_left _ _
  · show confidenceOf rs pe ≤ 1
    unfold confidenceOf
    split
    · norm_num
    · rename_i hr
      have hrpos : 0 < rs.histRange := lt_of_not_le hr
      have hw : 0 ≤ upperOf rs pe - lowerOf rs pe :=
        sub_nonneg.mpr (le_trans hlow hupp)
      have hq : 0 ≤ (upperOf rs pe - lowerOf rs pe) / rs.histRange :=
        div_nonneg hw (le_of_lt hrpos)
      exact max_le (by norm_num) (by linarith)

/-- C3: `loadCurrent` fails with `ModelUnavailableError` exactly when no
bundle has ever been promoted for the target, or when the current
bundle's feature-schema fingerprint differs from the fingerprint the
Feature Engineer currently produces — so a bundle trained under schema
v1 against an engine emitting schema v2 always errors and never yields a
bundle. -/
theorem loadCurrent_modelUnavailable_iff (reg : Registry) (fp : Nat) (t : String) :
    loadCurrent reg fp t = .error .modelUnavailableError ↔
      findCurrent reg t = none ∨
        ∃ b, findCurrent reg t = some b ∧ b.fingerprint ≠ fp := by
  unfold loadCurrent
  cases h : findCurrent reg t with
  | none => simp
  | some b =>
      by_cases hb : b.fingerprint = fp
      · simp [hb]
      · simp [hb]

/-- C4: the Prediction Service returns partial results: each target is
marked with the explicit unavailable marker exactly when its predictor
is unavailable (no valid current bundle or too few training samples),
each available target is populated with a prediction, and the match
context is echoed back. -/
theorem predictService_partial_results (reg : Registry) (fp : Nat)
    (fv : List ℚ) (ctx : MatchContext) :
    ((predictService reg fp fv ctx).runs = .unavailable ↔
        predictorAvailable reg fp "runs" = false) ∧
    ((predictService reg fp fv ctx).wickets = .unavailable ↔
        predictorAvailable reg fp "wickets" = false) ∧
    ((predictService reg fp fv ctx).strike_rate = .unavailable ↔
        predictorAvailable reg fp "strike_rate" = false) ∧
    ((predictService reg fp fv ctx).economy_rate = .unavailable ↔
        predictorAvailable reg fp "economy_rate" = false) ∧
    (predictorAvailable reg fp "runs" = true →
        ∃ p, (predictService reg fp fv ctx).runs = .predicted p) ∧
    (predictorAvailable reg fp "wickets" = true →
        ∃ p, (predictService reg fp fv ctx).wickets = .predicted p) ∧
    (predictorAvailable reg fp "strike_rate" = true →
        ∃ p, (predictService reg fp fv ctx).strike_rate = .predicted p) ∧
    (predictorAvailable reg fp "economy_rate" = true →
        ∃ p, (predictService reg fp fv ctx).economy_rate = .predicted p) ∧
    (predictService reg fp fv ctx).context = ctx := by
  have key : ∀ t : String,
      (predictTarget reg fp fv t = .unavailable ↔
        predictorAvailable reg fp t = false) ∧
      (predictorAvailable reg fp t = true →
        ∃ p, predictTarget reg fp fv t = .predicted p) := by
    intro t
    unfold predictTarget predictorAvailable
    cases h : loadCurrent reg fp t with
    | error e => simp
    | ok b =>
        by_cases hs : minTrainingSamples ≤ b.trainingSamples
        · simp [hs]
        · simp [hs]
  exact ⟨(key "runs").1, (key "wickets").1, (key "strike_rate").1,
    (key "economy_rate").1, (key "runs").2, (key "wickets").2,
    (key "strike_rate").2, (key "economy_rate").2, rfl⟩

/-- Witness for C4: a registry promoting only a well-trained wickets
bundle under the current fingerprint yields a result with runs marked
unavailable and wickets populated. -/
theorem predictService_partial_results_witness :
    (predictService
        ⟨[("wickets", ⟨"m1", "wickets", [1], 1, ⟨-2, 3, 1, 50, 100⟩, 20, 0⟩)]⟩
        1 [1] ⟨1, "CSK", "MI", "Chepauk", "2025-03-23"⟩).runs = .unavailable ∧
    ∃ p, (predictService
        ⟨[("wickets", ⟨"m1", "wickets", [1], 1, ⟨-2, 3, 1, 50, 100⟩, 20, 0⟩)]⟩
        1 [1] ⟨1, "CSK", "MI", "Chepauk", "2025-03-23"⟩).wickets = .predicted p := by
  have h := predictService_partial_results
    ⟨[("wickets", ⟨"m1", "wickets", [1], 1, ⟨-2, 3, 1, 50, 100⟩, 20, 0⟩)]⟩
    1 [1] ⟨1, "CSK", "MI", "Chepauk", "2025-03-23"⟩
  exact ⟨h.1.mpr (by decide), h.2.2.2.2.2.1 (by decide)⟩

/-- C5: `fetch` serves the cached payload while the entry is fresh;
when the entry is stale and every external attempt fails it returns the
last cached payload annotated stale; and it raises `IngestionError`
exactly when no payload has ever been cached and every attempt fails. -/
theorem fetch_stale_fallback_policy (now ttl : Nat) (cached : Option CacheEntry)
    (attempts : List (Option String)) :
    (∀ e, cached = some e → isFresh now e = true →
        (fetch now ttl cached attempts).1 = .fresh e.payload) ∧
    (∀ e, cached = some e → isFresh now e = false →
        (firstSuccess attempts).1 = none →
        (fetch now ttl cached attempts).1 = .stale e.payload) ∧
    ((fetch now ttl cached attempts).1 = .failed .ingestionError ↔
        cached = none ∧ (firstSuccess attempts).1 = none) := by
  cases cached with
  | none =>
      cases hfs : firstSuccess attempts with
      | mk op k => cases op <;> simp [fetch, hfs]
  | some e =>
      by_cases hf : isFresh now e
      · simp [fetch, hf]
      · cases hfs : firstSuccess attempts with
        | mk op k => cases op <;> simp [fetch, hf, hfs]

/-- Witness for C5: a fresh hit, a stale fallback after exhausted
retries, and an `IngestionError` on a never-cached key. -/
theorem fetch_stale_fallback_policy_witness :
    (fetch 3 5 (some ⟨"old", 0, 5⟩) [none, none]).1 = .fresh "old" ∧
    (fetch 20 5 (some ⟨"old", 0, 5⟩) [none, none]).1 = .stale "old" ∧
    (fetch 20 5 none [none, none]).1 = .failed .ingestionError := by
  refine ⟨(fetch_stale_fallback_policy 3 5 _ _).1 ⟨"old", 0, 5⟩ rfl (by decide),
    (fetch_stale_fallback_policy 20 5 _ _).2.1 ⟨"old", 0, 5⟩ rfl (by decide) (by decide),
    (fetch_stale_fallback_policy 20 5 none _).2.2.mpr ⟨rfl, by decide⟩⟩

/-- C6: two fetches of the same key within the TTL window issue exactly
one external call in total and return identical payloads: the first
(cold) fetch calls out once and caches the payload, the second is served
from the fresh entry without consulting the external source at all. -/
theorem fetch_cache_idempotent (t0 t1 ttl : Nat) (p : String)
    (attempts2 : List (Option String)) (hwin : t1 - t0 ≤ ttl) :
    (fetch t0 ttl none [some p]).2.2
      + (fetch t1 ttl (fetch t0 ttl none [some p]).2.1 attempts2).2.2 = 1 ∧
    (fetch t0 ttl none [some p]).1 = .refreshed p ∧
    (fetch t1 ttl (fetch t0 ttl none [some p]).2.1 attempts2).1 = .fresh p := by
  have h1 : fetch t0 ttl none [some p] = (.refreshed p, some ⟨p, t0, ttl⟩, 1) := rfl
  have h2 : isFresh t1 ⟨p, t0, ttl⟩ = true := by
    simpa [isFresh] using hwin
  rw [h1]
  simp [fetch, h2]

/-- Witness for C6: a second fetch 5 time units after the first, under a
TTL of 10. -/
theorem fetch_cache_idempotent_witness :
    (fetch 0 10 none [some "payload"]).2.2
      + (fetch 5 10 (fetch 0 10 none [some "payload"]).2.1 [none]).2.2 = 1 ∧
    (fetch 0 10 none [some "payload"]).1 = .refreshed "payload" ∧
    (fetch 5 10 (fetch 0 10 none [some "payload"]).2.1 [none]).1 = .fresh "payload" :=
  fetch_cache_idempotent 0 5 10 "payload" [none] (by decide)

/-- The decay weights for five records under decay 4/5, evaluated. -/
theorem decayWeights_five :
    decayWeights (4/5) 5 = [(4/5 : ℚ)^4, (4/5)^3, (4/5)^2, (4/5)^1, (4/5)^0] := by
  have hr : List.range 5 = [0, 1, 2, 3, 4] := rfl
  simp [decayWeights, hr]

/-- C7: the form factor is the decay-weighted mean of the recent records
with weights normalized to sum one, and on records [10, 20, 5, 45, 30]
(most recent last) with decay 0.8 it equals the weighted mean with
weights 0.8^4, 0.8^3, 0.8^2, 0.8^1, 0.8^0 normalized to sum one. -/
theorem formFactor_decay_weighted_mean (decay : ℚ) (records : List ℚ)
    (h : (decayWeights decay records.length).sum ≠ 0) :
    formFactor decay records =
      (List.zipWith
        (fun a b => a / (decayWeights decay records.length).sum * b)
        (decayWeights decay records.length) records).sum ∧
    formFactor (4/5) [10, 20, 5, 45, 30] =
      ((4/5 : ℚ)^4 / ((4/5 : ℚ)^4 + (4/5)^3 + (4/5)^2 + (4/5)^1 + (4/5)^0)) * 10
      + ((4/5 : ℚ)^3 / ((4/5 : ℚ)^4 + (4/5)^3 + (4/5)^2 + (4/5)^1 + (4/5)^0)) * 20
      + ((4/5 : ℚ)^2 / ((4/5 : ℚ)^4 + (4/5)^3 + (4/5)^2 + (4/5)^1 + (4/5)^0)) * 5
      + ((4/5 : ℚ)^1 / ((4/5 : ℚ)^4 + (4/5)^3 + (4/5)^2 + (4/5)^1 + (4/5)^0)) * 45
      + ((4/5 : ℚ)^0 / ((4/5 : ℚ)^4 + (4/5)^3 + (4/5)^2 + (4/5)^1 + (4/5)^0)) * 30 := by
  constructor
  · unfold formFactor
    rw [if_neg h, sum_zipWith_div]
  · have hlen : ([10, 20, 5, 45, 30] : List ℚ).length = 5 := rfl
    unfold formFactor
    rw [hlen, decayWeights_five]
    norm_num

/-- Witness for C7 at the scenario input, where the decay weights sum to
a nonzero value. -/
theorem formFactor_decay_weighted_mean_witness :
    formFactor (4/5) [10, 20, 5, 45, 30] =
      (List.zipWith
        (fun a b => a / (decayWeights (4/5) ([10, 20, 5, 45, 30] : List ℚ).length).sum * b)
        (decayWeights (4/5) ([10, 20, 5, 45, 30] : List ℚ).length)
        [10, 20, 5, 45, 30]).sum :=
  (formFactor_decay_weighted_mean (4/5) [10, 20, 5, 45, 30]
    (by
      have hlen : ([10, 20, 5, 45, 30] : List ℚ).length = 5 := rfl
      rw [hlen, decayWeights_five]
      norm_num)).1

/-- C8: for every medians table and every set of possibly-missing
underlying inputs, the built feature vector has exactly the declared
schema's length and name order, every schema name is populated with a
numeric value, a missing underlying input is imputed with the role-level
median, and a present input is passed through. -/
theorem build_fixed_schema_total_imputation (medians : String → ℚ)
    (inputs : List (String × Option ℚ)) :
    (build medians inputs).length = featureSchema.length ∧
    (build medians inputs).map (fun q => q.1) = featureSchema ∧
    (∀ n ∈ featureSchema, ∃ v : ℚ, (n, v) ∈ build medians inputs) ∧
    (∀ n ∈ featureSchema, lookupRaw inputs n = none →
        (n, medians n) ∈ build medians inputs) ∧
    (∀ n ∈ featureSchema, ∀ v, lookupRaw inputs n = some v →
        (n, v) ∈ build medians inputs) := by
  refine ⟨List.length_map _ _, ?_, ?_, ?_, ?_⟩
  · simp [build, Function.comp_def]
  · intro n hn
    exact ⟨_, List.mem_map.mpr ⟨n, hn, rfl⟩⟩
  · intro n hn h
    exact List.mem_map.mpr ⟨n, hn, by simp [h]⟩
  · intro n hn v h
    exact List.mem_map.mpr ⟨n, hn, by simp [h]⟩

/-- Witness for C8: a concrete medians table and inputs with one missing
and one present metric. -/
theorem build_fixed_schema_total_imputation_witness :
    ("venue_factor", (3 : ℚ)) ∈
      build (fun _ => 3) [("venue_factor", none), ("batting_form", some 7)] ∧
    ("batting_form", (7 : ℚ)) ∈
      build (fun _ => 3) [("venue_factor", none), ("batting_form", some 7)] := by
  have h := build_fixed_schema_total_imputation (fun _ => 3)
    [("venue_factor", none), ("batting_form", some 7)]
  exact ⟨h.2.2.2.1 "venue_factor" (by decide) (by decide),
    h.2.2.2.2 "batting_form" (by decide) 7 (by decide)⟩

/-- C10: the dashboard's `loadMatches` keeps exactly the first
`min n 6` matches of the list returned by the matches endpoint, in the
order returned. -/
theorem dashboard_loadMatches_first_six (data : List MatchInfo) :
    (loadMatches data).length = min data.length 6 ∧
    loadMatches data <+: data := by
  constructor
  · simp [loadMatches, Nat.min_comm]
  · exact List.take_prefix 6 data

end IPL
